import Mathlib

/-!
Verification development for the `iteration-mcp` server.

The definitions below shallowly embed the code of `src/api.ts`,
`src/git-utils.ts` and `src/index.ts`:

* JavaScript numbers that hold timestamps, counts and ids are modelled as
  `Int`/`Nat`; `Math.ceil(a / b)` on integer inputs with a positive integer
  divisor is `jsCeilDiv`.
* `parseInt` (radix unspecified, so base 10 with a `0x`/`0X` hexadecimal
  escape) is `parseIntJS`, returning `none` where JavaScript returns `NaN`.
* `String.prototype.includes` is `strIncludes`.
* `x || d` applied to an optional string field is `jsOr` (both a missing
  field and the empty string fall through to the default, matching
  JavaScript truthiness for strings).
* Fallible operations return `Except`; code that shells out to git or
  performs HTTP is modelled by passing the observed outcomes in explicitly
  (`GitObs`, `RemoteAPI`), with `none`/`Except.error` standing for a thrown
  exception or empty command output exactly where the source catches them.
-/

/-- Ceiling division: `Math.ceil (a / b)` for integers `a`, `b` with `0 < b`:
`⌈a / b⌉ = ⌊(a + b - 1) / b⌋`, and Lean's `Int` division is floor
division for a positive divisor. -/
def jsCeilDiv (a b : Int) : Int := (a + b - 1) / b

/-- Milliseconds per day, the divisor `1000 * 60 * 60 * 24` used by the
work-day computations. -/
def msPerDay : Int := 86400000

/-- JavaScript whitespace accepted by `parseInt` before the number
(ASCII subset; the sources only ever pass ASCII tokens). -/
def isJsSpace (c : Char) : Bool :=
  c == ' ' || c == '\t' || c == '\n' || c == '\r'

/-- Decimal digit value, via the character code (codes 48-57 are the
digits). -/
def digitVal10 (c : Char) : Option Nat :=
  let n := c.toNat
  if 48 ≤ n ∧ n ≤ 57 then some (n - 48) else none

/-- Hexadecimal digit value, via the character code (codes 97-102 are
`a`-`f`, codes 65-70 are `A`-`F`). -/
def digitVal16 (c : Char) : Option Nat :=
  let n := c.toNat
  if 48 ≤ n ∧ n ≤ 57 then some (n - 48)
  else if 97 ≤ n ∧ n ≤ 102 then some (n - 87)
  else if 65 ≤ n ∧ n ≤ 70 then some (n - 55)
  else none

/-- Accumulate the longest digit run; `none` when no digit was consumed
(JavaScript `parseInt` returns `NaN` in that case). -/
def parseDigitsAux (f : Char → Option Nat) (base : Nat) :
    List Char → Option Nat → Option Nat
  | [], acc => acc
  | c :: cs, acc =>
    match f c with
    | some d => parseDigitsAux f base cs (some ((acc.getD 0) * base + d))
    | none => acc

/-- JavaScript `parseInt(s)` with no radix argument: skip leading
whitespace, read an optional sign, then either a `0x`/`0X` hexadecimal
literal or a decimal digit run; `none` models `NaN`. -/
def parseIntJS (s : String) : Option Int :=
  let cs := s.data.dropWhile isJsSpace
  let (sign, body) : Int × List Char :=
    match cs with
    | '-' :: r => (-1, r)
    | '+' :: r => (1, r)
    | _ => (1, cs)
  let mag : Option Nat :=
    match body with
    | '0' :: x :: r =>
      if x == 'x' || x == 'X' then parseDigitsAux digitVal16 16 r none
      else parseDigitsAux digitVal10 10 body none
    | _ => parseDigitsAux digitVal10 10 body none
  mag.map (fun n => sign * (n : Int))

/-- Does the character list `s` start with the pattern `pat`? -/
def charsStartWith : List Char → List Char → Bool
  | _, [] => true
  | [], _ :: _ => false
  | c :: cs, d :: ds => c == d && charsStartWith cs ds

/-- Does the character list `s` contain the pattern `pat` as a contiguous
run?  The empty pattern always matches. -/
def charsContain (s pat : List Char) : Bool :=
  match s with
  | [] => charsStartWith [] pat
  | _ :: tail => charsStartWith s pat || charsContain tail pat

/-- JavaScript `s.includes(t)`. -/
def strIncludes (s t : String) : Bool :=
  charsContain s.data t.data

deriving instance DecidableEq for Except

/-- The JavaScript idiom `o || d` for an optional string field: a missing field and the empty
string are both falsy. -/
def jsOr (o : Option String) (d : String) : String :=
  match o with
  | some s => if s == "" then d else s
  | none => d

/-- The JavaScript idiom `o || d` for an optional number field (`0` is falsy, but every use in
the source pairs it with the default `0`, so `getD` is exact there; we
keep the faithful falsy test anyway). -/
def jsOrInt (o : Option Int) (d : Int) : Int :=
  match o with
  | some n => if n == 0 then d else n
  | none => d

/-- A project-group entry returned by `getProjectList` (`{id, name}`). -/
structure Project where
  id : Int
  name : String
deriving DecidableEq, Repr

/-- The two failure messages thrown by the project-matching block of
`APIManager.createIteration` (src/api.ts lines 145-188), each carrying
the rendered `name(id)` list of all available projects. -/
inductive ResolveErr where
  | idNotFound (input : Int) (available : String)
  | nameNotFound (input : String) (available : String)
deriving DecidableEq, Repr

/-- Rendering of the available list: `projectList.map(p => p.name + "(" + p.id + ")").join(", ")`. -/
def availList (ps : List Project) : String :=
  String.intercalate ", " (ps.map (fun p => p.name ++ "(" ++ toString p.id ++ ")"))

/-- The name-matching test from src/api.ts lines 165-169: one predicate
per project, the disjunction of exact equality, `project.name` containing
the token, and the token containing `project.name`. -/
def nameMatches (token : String) (p : Project) : Bool :=
  p.name == token || strIncludes p.name token || strIncludes token p.name

/-- The non-numeric branch of the resolver (src/api.ts lines 164-178):
a single `find` over the listed projects with `nameMatches`. -/
def resolveByName (token : String) (ps : List Project) : Except ResolveErr Int :=
  match ps.find? (nameMatches token) with
  | some p => .ok p.id
  | none => .error (.nameNotFound token (availList ps))

/-- Identifier resolution from `APIManager.createIteration`
(src/api.ts lines 150-179): `parseInt` the token; a positive number must
equal some project's id, anything else goes through name matching. -/
def resolveProjectId (token : String) (ps : List Project) : Except ResolveErr Int :=
  match parseIntJS token with
  | some n =>
    if 0 < n then
      match ps.find? (fun p => p.id == n) with
      | some _ => .ok n
      | none => .error (.idNotFound n (availList ps))
    else resolveByName token ps
  | none => resolveByName token ps

/-- A token counts as numeric for the resolver exactly when `parseInt`
yields a positive number (src/api.ts line 152). -/
def numericPositive (token : String) : Prop :=
  ∃ n : Int, parseIntJS token = some n ∧ 0 < n


/-! Git work-day estimation.

Two separate implementations exist in the source:

* `GitUtils.calculateWorkDays` (src/git-utils.ts lines 223-314), and
* the inline estimation block of `handleBasicInfo`
  (src/index.ts lines 828-885) — the one executed by the live
  `create_iteration basic_info` step, which imports only the `GitInfo`
  type from git-utils.

Both shell out to git.  `GitObs` packages the outcome of each git query:
`none` stands for a thrown `execSync`/empty output exactly where the
source's `try`/`catch` (or its explicit falsiness test plus `throw`)
falls through to the next strategy; timestamps are epoch milliseconds. -/

/-- Observed git query outcomes for one workspace at one instant. -/
structure GitObs where
  /-- Result of `git branch --show-current` (trimmed); `none` = query threw. -/
  currentBranch : Option String
  /-- Timestamp of the merge-base commit with main/master; `none` =
  merge-base or its timestamp unavailable. -/
  mergeBaseTime : Option Int
  /-- Timestamp of the branch's first commit; `none` = unavailable. -/
  branchFirstCommitTime : Option Int
  /-- Result of `git log --since="30 days ago" --oneline | wc -l` parsed;
  `none` = query threw. -/
  commitsLast30 : Option Nat
  /-- Timestamp of the first commit of the whole history; `none` =
  unavailable. -/
  firstCommitTime : Option Int
  /-- The current time in epoch milliseconds. -/
  now : Int
deriving DecidableEq, Repr

/-- The test `currentBranch && currentBranch !== 'main' && currentBranch !== 'master'`:
the test both implementations use to take the feature-branch path
(the empty string is falsy). -/
def isFeatureName (br : String) : Bool :=
  br != "" && br != "main" && br != "master"

/-- Embedding of `GitUtils.calculateWorkDays` (src/git-utils.ts lines 223-314).
Feature branch: merge-base timestamp, else branch first commit, else
`max(ceil(commits30 / 3), 1)`, each day count floored at 1 and never
capped; main-line branch: days since the first commit floored at 1, and
the constant `1` when that commit is unavailable; the constant `7` only
when the branch query itself throws (outer catch). -/
def calculateWorkDays (o : GitObs) : Int :=
  match o.currentBranch with
  | none => 7
  | some br =>
    if isFeatureName br then
      match o.mergeBaseTime with
      | some t => max (jsCeilDiv (o.now - t) msPerDay) 1
      | none =>
        match o.branchFirstCommitTime with
        | some t => max (jsCeilDiv (o.now - t) msPerDay) 1
        | none =>
          match o.commitsLast30 with
          | some c => max (jsCeilDiv (c : Int) 3) 1
          | none => 7
    else
      match o.firstCommitTime with
      | some t => max (jsCeilDiv (o.now - t) msPerDay) 1
      | none => 1

/-- The inline work-day estimation of `handleBasicInfo`
(src/index.ts lines 828-885).  Feature branch: merge-base timestamp,
else branch first commit, both clamped to `[1, 30]` via
`Math.min(Math.max(d, 1), 30)`, else `max(ceil(commits30 / 3), 3)`;
main-line branch: `max(ceil(commits30 / 3), 3)` when there are commits in
the last 30 days and `7` otherwise, never consulting the first commit;
`7` when a required query throws (outer catch). -/
def estimateWorkDaysHandler (o : GitObs) : Int :=
  match o.currentBranch with
  | none => 7
  | some br =>
    if isFeatureName br then
      match o.mergeBaseTime with
      | some t => min (max (jsCeilDiv (o.now - t) msPerDay) 1) 30
      | none =>
        match o.branchFirstCommitTime with
        | some t => min (max (jsCeilDiv (o.now - t) msPerDay) 1) 30
        | none =>
          match o.commitsLast30 with
          | some c => max (jsCeilDiv (c : Int) 3) 3
          | none => 7
    else
      match o.commitsLast30 with
      | some c => if 0 < c then max (jsCeilDiv (c : Int) 3) 3 else 7
      | none => 7


/-! Collection-workflow session and step handlers.

`IterationMCPServer.sessionData` (src/index.ts lines 112-116) and the
three step handlers `handleBasicInfo` (748-935), `handleProjectInfo`
(937-994) and `handleModules` (996-1062).  The handlers take the parsed
JSON payload (a missing key is `none`) and the current session, and
return the step outcome together with the session as it stands after the
call — validation happens before any session write except where the
source itself writes first.  Side effects outside `sessionData` (cache
updates, git probing, response text) do not touch the session and are
not part of the state. -/

/-- A `basic_info` step payload (parsed JSON, missing keys are `none`). -/
structure BasicInfoStep where
  projectLine : Option String
  iterationName : Option String
  onlineTime : Option String
  remarks : Option String
deriving DecidableEq, Repr

/-- A `project_info` step payload. -/
structure ProjectInfoStep where
  productDoc : Option String
  technicalDoc : Option String
  projectDashboard : Option String
  designDoc : Option String
  gitProjectUrl : Option String
  gitProjectName : Option String
  developmentBranch : Option String
  participants : Option (List String)
  reviewers : Option (List String)
  workHours : Option Int
  remarks : Option String
deriving DecidableEq, Repr

/-- A component module entry (`{name, relativePath, reviewer, image?}`);
only the fields the code reads are kept. -/
structure ComponentModule where
  name : Option String
  relativePath : Option String
  reviewer : Option String
deriving DecidableEq, Repr

/-- A function module entry (`{name, reviewer, description?}`). -/
structure FunctionModule where
  name : Option String
  description : Option String
  reviewer : Option String
deriving DecidableEq, Repr

/-- A `modules` step payload: both keys must be present (an empty array
is truthy and passes the check). -/
structure ModulesStep where
  componentModules : Option (List ComponentModule)
  functionModules : Option (List FunctionModule)
deriving DecidableEq, Repr

/-- The per-process session store `sessionData`. -/
structure Session where
  basicInfo : Option BasicInfoStep
  projectInfo : Option ProjectInfoStep
  modules : Option ModulesStep
deriving DecidableEq, Repr

/-- The empty session: initial state, and the state after
`create_iteration step="start"` (line 666) or a successful submission
(line 1154). -/
def Session.empty : Session := ⟨none, none, none⟩

/-- JavaScript truthiness of an optional string field:
`!x` is true for a missing key and for the empty string. -/
def present (o : Option String) : Bool :=
  match o with
  | some s => s != ""
  | none => false

/-- Step failure: a thrown `Error` with its message.  `validation` is a
missing required field; `incomplete` is the defensive completeness check
of `handleModules`. -/
inductive StepErr where
  | validation (msg : String)
  | incomplete (msg : String)
deriving DecidableEq, Repr

/-- Embedding of `handleBasicInfo` (src/index.ts lines 748-935), restricted to its
effect on the session: validate the three required fields, then store the
payload verbatim; everything after the store (cache update, git probing,
guidance text) leaves `sessionData` untouched. -/
def handleBasicInfo (s : Session) (p : BasicInfoStep) :
    Except StepErr Unit × Session :=
  if present p.projectLine && present p.iterationName && present p.onlineTime then
    (.ok (), { s with basicInfo := some p })
  else
    (.error (.validation "项目线、迭代名称和上线时间为必填项"), s)

/-- Embedding of `handleProjectInfo` (src/index.ts lines 937-994): check
`gitProjectUrl`, `gitProjectName`, `developmentBranch` in order, then
store the payload verbatim.  No check of `sessionData.basicInfo` is
performed. -/
def handleProjectInfo (s : Session) (p : ProjectInfoStep) :
    Except StepErr Unit × Session :=
  if !present p.gitProjectUrl then
    (.error (.validation "gitProjectUrl 为必填项"), s)
  else if !present p.gitProjectName then
    (.error (.validation "gitProjectName 为必填项"), s)
  else if !present p.developmentBranch then
    (.error (.validation "developmentBranch 为必填项"), s)
  else
    (.ok (), { s with projectInfo := some p })

/-- The `crApplication.projectInfo` object of an assembled/submitted
record, as consumed by `convertToCRApplicationData`
(src/api.ts lines 99-134) and produced by `handleModules`
(src/index.ts lines 1017-1032). -/
structure CRProjectInfo where
  projectName : Option String
  projectManager : Option String
  technicalLeader : Option String
  participants : Option (List String)
  reviewers : Option (List String)
  startDate : Option String
  endDate : Option String
  description : Option String
  productDoc : Option String
  technicalDoc : Option String
  projectDashboard : Option String
  designDoc : Option String
  gitProjectUrl : Option String
  developmentBranch : Option String
  workHours : Option Int
deriving DecidableEq, Repr

/-- The `crApplication` part of a complete iteration record. -/
structure CRApplication where
  projectInfo : Option CRProjectInfo
  componentModules : Option (List ComponentModule)
  functionModules : Option (List FunctionModule)
deriving DecidableEq, Repr

/-- The record assembled by `handleModules` and echoed back for manual
confirmation (it is not submitted automatically). -/
structure AssembledIteration where
  basicInfo : BasicInfoStep
  crApplication : CRApplication
deriving DecidableEq, Repr

/-- The record assembly of `handleModules` (src/index.ts lines
1014-1036); `today` is `new Date().toISOString().split('T')[0]`. -/
def assembleIteration (b : BasicInfoStep) (p : ProjectInfoStep)
    (m : ModulesStep) (today : String) : AssembledIteration :=
  { basicInfo := b
    crApplication :=
      { projectInfo := some
          { projectName := p.gitProjectName
            projectManager := some (jsOr ((p.participants.getD []).get? 0) "")
            technicalLeader := some (jsOr ((p.participants.getD []).get? 1) "")
            participants := some (p.participants.getD [])
            reviewers := none
            startDate := some today
            endDate := b.onlineTime
            description := some (jsOr p.remarks "")
            productDoc := some (jsOr p.productDoc "")
            technicalDoc := some (jsOr p.technicalDoc "")
            projectDashboard := some (jsOr p.projectDashboard "")
            designDoc := some (jsOr p.designDoc "")
            gitProjectUrl := p.gitProjectUrl
            developmentBranch := p.developmentBranch
            workHours := some (jsOrInt p.workHours 0) }
        componentModules := m.componentModules
        functionModules := m.functionModules } }

/-- Embedding of `handleModules` (src/index.ts lines 996-1062): validate that both
module keys are present, STORE the payload into the session (line 1006),
and only then check that the earlier steps' data exists (line 1009);
on the complete session assemble the record for confirmation. -/
def handleModules (s : Session) (m : ModulesStep) (today : String) :
    Except StepErr AssembledIteration × Session :=
  if !(m.componentModules.isSome && m.functionModules.isSome) then
    (.error (.validation "componentModules 和 functionModules 为必填项"), s)
  else
    let stored : Session := { s with modules := some m }
    match s.basicInfo, s.projectInfo with
    | some b, some p => (.ok (assembleIteration b p m today), stored)
    | some _, none => (.error (.incomplete "缺少之前步骤的数据，请重新开始流程"), stored)
    | none, _ => (.error (.incomplete "缺少之前步骤的数据，请重新开始流程"), stored)

/-! Two-phase submitter.

`APIManager.submitCompleteIteration` (src/api.ts lines 61-94) and its
callees `createIteration` (139-221), `verifyIterationCreated` (226-245),
`convertToCRApplicationData` (99-134) and `createCRApplication`
(250-284).  The remote service is an explicit oracle `RemoteAPI`; ids
travel as `Int` (the source stringifies `response.data.data.id` and
parses it back with `parseInt`, an identity round trip for the numeric
ids the service returns).  Every remote interaction and the data
transform are logged, in source order, into a `SubmitEvent` trace;
`deleteIteration` is in the event alphabet so that the absence of any
compensating delete is expressible. -/

/-- The `basicInfo` part of a submitted record
(`IterationBasicInfo` in src/types.ts): the three required fields plus
the optional remark. -/
structure IterationBasicInfo where
  projectLine : String
  iterationName : String
  onlineTime : String
  remarks : Option String
deriving DecidableEq, Repr

/-- A complete iteration record handed to `submitCompleteIteration`. -/
structure CompleteIteration where
  basicInfo : IterationBasicInfo
  crApplication : CRApplication
deriving DecidableEq, Repr

/-- A component line item of the remote CR payload (src/api.ts 105-110). -/
structure ComponentItem where
  name : String
  address : String
  auditId : Int
  imgUrl : String
deriving DecidableEq, Repr

/-- A function line item of the remote CR payload (src/api.ts 113-117). -/
structure FunctionItem where
  name : String
  desc : String
  auditId : Int
deriving DecidableEq, Repr

/-- The shape `CRApplicationData` that the remote API expects
(src/api.ts lines 119-133). -/
structure CRApplicationData where
  reqDocUrl : String
  techDocUrl : String
  projexUrl : String
  uxDocUrl : String
  gitlabUrl : String
  gitProjectName : String
  gitlabBranch : String
  participantIds : String
  checkUserIds : String
  spendTime : String
  componentList : List ComponentItem
  functionList : List FunctionItem
  sprintId : Int
deriving DecidableEq, Repr

/-- An empty `projectInfo` object, the `crApplication.projectInfo || {}`
default of src/api.ts line 100. -/
def emptyCRProjectInfo : CRProjectInfo :=
  ⟨none, none, none, none, none, none, none, none, none, none, none, none,
   none, none, none⟩

/-- The audit id `parseInt(module.reviewer) || 0` (src/api.ts lines 108 and 116). -/
def reviewerAuditId (reviewer : Option String) : Int :=
  match reviewer with
  | some s => (parseIntJS s).getD 0
  | none => 0

/-- Embedding of `APIManager.convertToCRApplicationData` (src/api.ts lines 99-134):
flatten document links with `'-'`/`''`/`'main'` defaults, join the id
lists with commas, map the modules into line items, and leave
`sprintId := 0` to be overwritten by `createCRApplication`. -/
def convertToCRApplicationData (cr : CRApplication) : CRApplicationData :=
  let pi := cr.projectInfo.getD emptyCRProjectInfo
  { reqDocUrl := jsOr pi.productDoc "-"
    techDocUrl := jsOr pi.technicalDoc "-"
    projexUrl := jsOr pi.projectDashboard "-"
    uxDocUrl := jsOr pi.designDoc "-"
    gitlabUrl := jsOr pi.gitProjectUrl ""
    gitProjectName := jsOr pi.projectName ""
    gitlabBranch := jsOr pi.developmentBranch "main"
    participantIds := (pi.participants.map (String.intercalate ",")).getD ""
    checkUserIds := (pi.reviewers.map (String.intercalate ",")).getD ""
    spendTime := toString (jsOrInt pi.workHours 0)
    componentList := (cr.componentModules.getD []).map (fun m =>
      { name := jsOr m.name ""
        address := jsOr m.relativePath ""
        auditId := reviewerAuditId m.reviewer
        imgUrl := "" })
    functionList := (cr.functionModules.getD []).map (fun m =>
      { name := jsOr m.name ""
        desc := jsOr m.description ""
        auditId := reviewerAuditId m.reviewer })
    sprintId := 0 }

/-- The POST body of the create-iteration call (src/api.ts 191-197). -/
structure IterationCreatePayload where
  projectId : Int
  name : String
  projectLine : String
  releaseTime : String
  remark : String
deriving DecidableEq, Repr

/-- Payload assembly of src/api.ts lines 191-197. -/
def mkIterationPayload (pid : Int) (b : IterationBasicInfo) :
    IterationCreatePayload :=
  { projectId := pid
    name := b.iterationName
    projectLine := b.projectLine
    releaseTime := b.onlineTime ++ " 00:00:00"
    remark := b.remarks.getD "" }

/-- The remote service as observed outcomes: each field is what the
corresponding HTTP call (after the source's own error wrapping) would
produce.  `Except.error` carries the thrown error's message. -/
structure RemoteAPI where
  /-- Outcome of `getProjectList()` (src/api.ts 388-422). -/
  projectList : Except String (List Project)
  /-- The create-iteration POST of `createIteration` (201-220),
  returning the new iteration id. -/
  createIterationPost : IterationCreatePayload → Except String Int
  /-- The detail read of `verifyIterationCreated` (226-245), returning
  the `success` flag. -/
  verifyIteration : Int → Except String Bool
  /-- The create-CR POST of `createCRApplication` (250-284), returning
  the new CR application id. -/
  createCRPost : CRApplicationData → Except String Int

/-- The events of one submission, in the order they occur; remote
mutations and reads plus the local data transform.  `deleteIteration`
is never emitted: the source has no compensating delete. -/
inductive SubmitEvent where
  | fetchProjects
  | resolveStep
  | postIteration
  | verifyProbe
  | transform
  | postCR
  | deleteIteration
deriving DecidableEq, Repr

/-- Submission failure, as surfaced by `submitCompleteIteration`'s
re-throw (src/api.ts lines 90-93). -/
inductive SubmitErr where
  | network (msg : String)
  | projectMatch (e : ResolveErr)
  | remote (msg : String)
deriving DecidableEq, Repr

/-- Embedding of `APIManager.createIteration` (src/api.ts lines 139-221): fetch the
project list (network failure is wrapped, line 187), resolve the project
token (lines 150-179, resolution failures re-thrown verbatim, line 183),
then POST the payload.  Returns the outcome plus the events so far. -/
def createIterationRun (api : RemoteAPI) (b : IterationBasicInfo) :
    Except SubmitErr Int × List SubmitEvent :=
  match api.projectList with
  | .error e => (.error (.network e), [.fetchProjects])
  | .ok ps =>
    match resolveProjectId b.projectLine ps with
    | .error re => (.error (.projectMatch re), [.fetchProjects, .resolveStep])
    | .ok pid =>
      match api.createIterationPost (mkIterationPayload pid b) with
      | .ok iterId => (.ok iterId, [.fetchProjects, .resolveStep, .postIteration])
      | .error e =>
        (.error (.remote e), [.fetchProjects, .resolveStep, .postIteration])

/-- The result pair returned on full success (iteration id and CR
application id). -/
structure SubmissionResult where
  iterationId : Int
  crApplicationId : Int
deriving DecidableEq, Repr

/-- Embedding of `APIManager.submitCompleteIteration` (src/api.ts lines 61-94):
create the iteration, probe it (`verifyIterationCreated` swallows every
failure, lines 241-244), transform the CR application, create the CR
application with `sprintId` overwritten by the new iteration id
(line 259), and re-throw any error.  The second component is the full
event trace. -/
def submitCompleteIteration (api : RemoteAPI) (it : CompleteIteration) :
    Except SubmitErr SubmissionResult × List SubmitEvent :=
  match (createIterationRun api it.basicInfo).1 with
  | .error e => (.error e, (createIterationRun api it.basicInfo).2)
  | .ok iterId =>
    match api.createCRPost
        { convertToCRApplicationData it.crApplication with sprintId := iterId } with
    | .ok crId =>
      (.ok ⟨iterId, crId⟩,
       (createIterationRun api it.basicInfo).2
         ++ [.verifyProbe, .transform, .postCR])
    | .error e =>
      (.error (.remote e),
       (createIterationRun api it.basicInfo).2
         ++ [.verifyProbe, .transform, .postCR])

/-! Shared concrete data for witnesses. -/

/-- A valid `project_info` payload. -/
def sampleProjectPayload : ProjectInfoStep :=
  ⟨none, none, none, none, some "https://x/y", some "y", some "feat/a",
   some ["1"], some ["2"], some 5, none⟩

/-- A valid `basic_info` payload. -/
def sampleBasicPayload : BasicInfoStep :=
  ⟨some "2", some "v1", some "2025-01-01", none⟩

/-- A valid `modules` payload with both lists empty. -/
def sampleModulesPayload : ModulesStep := ⟨some [], some []⟩

/-- A complete iteration record for submitter runs. -/
def sampleIteration : CompleteIteration :=
  ⟨⟨"1", "v1", "2025-01-01", none⟩, ⟨none, some [], some []⟩⟩

/-- A remote oracle on which every call succeeds. -/
def apiAllOk : RemoteAPI where
  projectList := .ok [⟨1, "Core"⟩]
  createIterationPost := fun _ => .ok 5
  verifyIteration := fun _ => .ok true
  createCRPost := fun _ => .ok 9

/-- A remote oracle on which iteration creation succeeds and CR-application
creation throws. -/
def apiCRFails : RemoteAPI where
  projectList := .ok [⟨1, "Core"⟩]
  createIterationPost := fun _ => .ok 5
  verifyIteration := fun _ => .ok true
  createCRPost := fun _ => .error "Request failed with status code 500"

/-- A main-branch observation: first commit 10 days ago, 12 commits in
the last 30 days. -/
def obsMainTen : GitObs := ⟨some "main", none, none, some 12, some (-10 * msPerDay), 0⟩

/-- A feature-branch observation that diverged 45 days ago. -/
def obsFeatFortyFive : GitObs :=
  ⟨some "feat/a", some (-45 * msPerDay), none, none, none, 0⟩

/-- The event trace of a fully successful submission. -/
def fullTrace : List SubmitEvent :=
  [.fetchProjects, .resolveStep, .postIteration, .verifyProbe, .transform, .postCR]

/-! Sanity checks: the embedded functions evaluated on concrete inputs. -/

example : parseIntJS "2" = some 2 := by decide
example : parseIntJS "9" = some 9 := by decide
example : parseIntJS "growth" = none := by decide
example : parseIntJS "  -12x" = some (-12) := by decide
example : parseIntJS "0x10" = some 16 := by decide
example : strIncludes "Growth" "rowt" = true := by decide
example : strIncludes "ab" "b" = true := by decide
example : strIncludes "b" "ab" = false := by decide
example : resolveProjectId "2" [⟨1, "Core"⟩, ⟨2, "Growth"⟩] = .ok 2 := by decide
example : resolveProjectId "growth" [⟨1, "Core"⟩, ⟨2, "Growth"⟩]
    = .error (.nameNotFound "growth" "Core(1), Growth(2)") := by decide
example : resolveProjectId "Growth" [⟨1, "Core"⟩, ⟨2, "Growth"⟩] = .ok 2 := by decide
example : resolveProjectId "b" [⟨1, "ab"⟩, ⟨2, "b"⟩] = .ok 1 := by decide

example :
    calculateWorkDays ⟨some "feat/a", some (0 - 45 * msPerDay), none, none, none, 0⟩
    = 45 := by decide
example :
    estimateWorkDaysHandler ⟨some "feat/a", some (0 - 45 * msPerDay), none, none, none, 0⟩
    = 30 := by decide
example :
    estimateWorkDaysHandler ⟨some "feat/a", some 0, none, none, none, 0⟩ = 1 := by
  decide
example :
    calculateWorkDays ⟨some "main", none, none, some 12, none, 0⟩ = 1 := by decide
example :
    estimateWorkDaysHandler ⟨some "main", none, none, some 12, none, 0⟩ = 4 := by
  decide
example :
    calculateWorkDays ⟨some "main", none, none, some 12, some (0 - 10 * msPerDay), 0⟩
    = 10 := by decide
example :
    estimateWorkDaysHandler ⟨some "main", none, none, some 3,
      some (0 - 10 * msPerDay), 0⟩ = 3 := by decide

/-! Helper lemmas. -/

/-- First-match property: `List.find?` returns the first element satisfying the predicate:
if everything before `x` fails the predicate and `x` satisfies it, the
search returns `x`. -/
theorem find?_first_of_split {α : Type} (p : α → Bool) (l1 : List α) (x : α)
    (l2 : List α) (h1 : ∀ y ∈ l1, p y = false) (hx : p x = true) :
    List.find? p (l1 ++ x :: l2) = some x := by
  induction l1 with
  | nil => simp [List.find?_cons, hx]
  | cons a as ih =>
    have ha : p a = false := h1 a (by simp)
    simp only [List.cons_append, List.find?_cons, ha]
    exact ih (fun y hy => h1 y (by simp [hy]))

/-- A positive millisecond difference always yields at least one day. -/
theorem one_le_ceilDay {d : Int} (h : 0 < d) : 1 ≤ jsCeilDiv d msPerDay := by
  unfold jsCeilDiv msPerDay
  omega

/-- For a token the resolver does not treat as a positive numeric id,
resolution reduces to the single name-matching pass. -/
theorem resolve_nonNumeric_eq_byName (token : String) (ps : List Project)
    (hnum : ¬ numericPositive token) :
    resolveProjectId token ps = resolveByName token ps := by
  unfold resolveProjectId
  cases h : parseIntJS token with
  | none => rfl
  | some n =>
    have hn : ¬ 0 < n := fun hpos => hnum ⟨n, h, hpos⟩
    simp [hn]

/-! Claims. -/

/-- C1 counterexample: the token `"b"` is non-numeric, project 2's name
equals `"b"` exactly, yet resolution returns project 1's id because the
first-listed project already matches by containment (`"ab"` contains
`"b"`) — exact equality is NOT tried against every project before the
substring rules. -/
theorem c1_counterexample :
    parseIntJS "b" = none ∧
    (⟨2, "b"⟩ : Project).name = "b" ∧
    strIncludes "ab" "b" = true ∧
    resolveProjectId "b" [⟨1, "ab"⟩, ⟨2, "b"⟩] = .ok 1 ∧
    (1 : Int) ≠ 2 := by decide

/-- C1 amended: for every non-numeric token, resolution is a single pass
in listed order in which each project is tested with the disjunction
(exact equality ∨ name contains token ∨ token contains name); the first
project satisfying any of the three rules wins (so an earlier containment
match shadows a later exact match), and when no project satisfies any
rule the resolver fails with the available-projects list. -/
theorem c1_amended (token : String) (ps : List Project)
    (hnum : ¬ numericPositive token) :
    ((∀ p ∈ ps, nameMatches token p = false) →
      resolveProjectId token ps = .error (.nameNotFound token (availList ps))) ∧
    (∀ l1 x l2, ps = l1 ++ x :: l2 →
      (∀ y ∈ l1, nameMatches token y = false) → nameMatches token x = true →
      resolveProjectId token ps = .ok x.id) := by
  constructor
  · intro hall
    rw [resolve_nonNumeric_eq_byName token ps hnum]
    unfold resolveByName
    have hnone : ps.find? (nameMatches token) = none := by
      rw [List.find?_eq_none]
      intro x hx
      simp [hall x hx]
    rw [hnone]
  · intro l1 x l2 hsplit h1 hx
    rw [resolve_nonNumeric_eq_byName token ps hnum]
    unfold resolveByName
    rw [hsplit, find?_first_of_split _ _ _ _ h1 hx]

/-- C1 amended witness: token `"zzz"` matches nothing and fails with the
rendered list; token `"b"` against `[{1,"ab"}, {2,"b"}]` resolves to the
first-listed containment match. -/
theorem c1_amended_witness :
    resolveProjectId "zzz" [⟨1, "Core"⟩]
      = .error (.nameNotFound "zzz" (availList [⟨1, "Core"⟩])) ∧
    resolveProjectId "b" [⟨1, "ab"⟩, ⟨2, "b"⟩] = .ok (⟨1, "ab"⟩ : Project).id := by
  have hz : ¬ numericPositive "zzz" := by
    rintro ⟨n, hn, _⟩
    rw [show parseIntJS "zzz" = none from by decide] at hn
    cases hn
  have hb : ¬ numericPositive "b" := by
    rintro ⟨n, hn, _⟩
    rw [show parseIntJS "b" = none from by decide] at hn
    cases hn
  refine ⟨(c1_amended "zzz" [⟨1, "Core"⟩] hz).1 (by decide), ?_⟩
  exact (c1_amended "b" [⟨1, "ab"⟩, ⟨2, "b"⟩] hb).2 [] ⟨1, "ab"⟩ [⟨2, "b"⟩]
    rfl (by simp) (by decide)

/-- C8: a token that `parseInt`s to a positive integer resolves to that
integer exactly when some listed project has that id, and otherwise fails
with the `name(id)` list of every available project; it never reaches the
name-matching rules. -/
theorem c8_numeric_token (tk : String) (ps : List Project) (n : Int)
    (hp : parseIntJS tk = some n) (hpos : 0 < n) :
    ((∃ p ∈ ps, p.id = n) → resolveProjectId tk ps = .ok n) ∧
    ((∀ p ∈ ps, p.id ≠ n) →
      resolveProjectId tk ps = .error (.idNotFound n (availList ps))) := by
  unfold resolveProjectId
  rw [hp]
  simp only [hpos, if_true, if_pos]
  constructor
  · rintro ⟨p, hmem, hid⟩
    cases hf : ps.find? (fun q => q.id == n) with
    | some q => simp [hf]
    | none =>
      exfalso
      have := List.find?_eq_none.mp hf p hmem
      simp [hid] at this
  · intro hall
    cases hf : ps.find? (fun q => q.id == n) with
    | none => simp [hf]
    | some q =>
      exfalso
      have hq := List.find?_some hf
      have hmem := List.mem_of_find?_eq_some hf
      simp at hq
      exact hall q hmem hq

/-- C8 witness: on `[{1,"Core"}, {2,"Growth"}]`, `"2"` resolves to id 2
and `"9"` fails listing both projects. -/
theorem c8_numeric_token_witness :
    resolveProjectId "2" [⟨1, "Core"⟩, ⟨2, "Growth"⟩] = .ok 2 ∧
    resolveProjectId "9" [⟨1, "Core"⟩, ⟨2, "Growth"⟩]
      = .error (.idNotFound 9 (availList [⟨1, "Core"⟩, ⟨2, "Growth"⟩])) := by
  refine ⟨?_, ?_⟩
  · exact (c8_numeric_token "2" [⟨1, "Core"⟩, ⟨2, "Growth"⟩] 2 (by decide)
      (by decide)).1 (by decide)
  · exact (c8_numeric_token "9" [⟨1, "Core"⟩, ⟨2, "Growth"⟩] 9 (by decide)
      (by decide)).2 (by decide)

/-- C7: a basic-info payload missing `projectLine`, `iterationName` or
`onlineTime` makes `handleBasicInfo` fail with the validation error and
leaves every field of the session exactly as it was. -/
theorem c7_basicInfo_validation (s : Session) (p : BasicInfoStep)
    (h : p.projectLine = none ∨ p.iterationName = none ∨ p.onlineTime = none) :
    handleBasicInfo s p
      = (.error (.validation "项目线、迭代名称和上线时间为必填项"), s) := by
  unfold handleBasicInfo
  rcases h with h | h | h <;> simp [h, present]

/-- C7 witness: a payload without `projectLine`, against a session that
already holds data, errors and leaves that session intact. -/
theorem c7_basicInfo_validation_witness :
    handleBasicInfo ⟨some sampleBasicPayload, none, none⟩
        ⟨none, some "v1", some "2025-01-01", none⟩
      = (.error (.validation "项目线、迭代名称和上线时间为必填项"),
         ⟨some sampleBasicPayload, none, none⟩) :=
  c7_basicInfo_validation ⟨some sampleBasicPayload, none, none⟩
    ⟨none, some "v1", some "2025-01-01", none⟩ (Or.inl rfl)

/-- C9: each collection step stores its payload by overwriting that
step's single session field, so submitting the same valid payload twice
leaves the session identical to submitting it once. -/
theorem c9_idempotent_steps (s : Session) (b : BasicInfoStep)
    (p : ProjectInfoStep) (m : ModulesStep) (today : String) :
    ((present b.projectLine && present b.iterationName
        && present b.onlineTime) = true →
      (handleBasicInfo (handleBasicInfo s b).2 b).2 = (handleBasicInfo s b).2) ∧
    ((present p.gitProjectUrl && present p.gitProjectName
        && present p.developmentBranch) = true →
      (handleProjectInfo (handleProjectInfo s p).2 p).2
        = (handleProjectInfo s p).2) ∧
    ((m.componentModules.isSome && m.functionModules.isSome) = true →
      (handleModules (handleModules s m today).2 m today).2
        = (handleModules s m today).2) := by
  refine ⟨?_, ?_, ?_⟩
  · intro h
    simp only [Bool.and_eq_true] at h
    simp [handleBasicInfo, h.1.1, h.1.2, h.2]
  · intro h
    simp only [Bool.and_eq_true] at h
    simp [handleProjectInfo, h.1.1, h.1.2, h.2]
  · intro h
    simp only [Bool.and_eq_true] at h
    cases hb : s.basicInfo <;> cases hp : s.projectInfo <;>
      simp [handleModules, h.1, h.2, hb, hp]

/-- C9 witness: running each step twice on the sample payloads stores
the same session content as running it once. -/
theorem c9_idempotent_steps_witness :
    (handleBasicInfo (handleBasicInfo Session.empty sampleBasicPayload).2
        sampleBasicPayload).2
      = (handleBasicInfo Session.empty sampleBasicPayload).2 ∧
    (handleProjectInfo (handleProjectInfo Session.empty sampleProjectPayload).2
        sampleProjectPayload).2
      = (handleProjectInfo Session.empty sampleProjectPayload).2 ∧
    (handleModules (handleModules Session.empty sampleModulesPayload "2025-01-01").2
        sampleModulesPayload "2025-01-01").2
      = (handleModules Session.empty sampleModulesPayload "2025-01-01").2 := by
  have h := c9_idempotent_steps Session.empty sampleBasicPayload
    sampleProjectPayload sampleModulesPayload "2025-01-01"
  exact ⟨h.1 (by decide), h.2.1 (by decide), h.2.2 (by decide)⟩

/-- C10: a valid modules payload submitted while basic or project info is
missing makes `handleModules` fail with the incomplete-session error,
but only after the session's `modules` field has already been overwritten
with the new payload — the failing call mutates the session. -/
theorem c10_modules_mutates_on_error (s : Session) (m : ModulesStep)
    (today : String) (hc : m.componentModules.isSome = true)
    (hf : m.functionModules.isSome = true)
    (h : s.basicInfo = none ∨ s.projectInfo = none) :
    handleModules s m today
      = (.error (.incomplete "缺少之前步骤的数据，请重新开始流程"),
         { s with modules := some m }) := by
  unfold handleModules
  rcases h with h | h <;>
    cases hb : s.basicInfo <;> cases hp : s.projectInfo <;>
    simp_all [hc, hf]

/-- C10 witness: a session holding only project info, given a valid
modules payload, errors yet comes back with its `modules` field set. -/
theorem c10_modules_mutates_on_error_witness :
    handleModules ⟨none, some sampleProjectPayload, none⟩
        sampleModulesPayload "2025-01-01"
      = (.error (.incomplete "缺少之前步骤的数据，请重新开始流程"),
         ⟨none, some sampleProjectPayload, some sampleModulesPayload⟩) :=
  c10_modules_mutates_on_error ⟨none, some sampleProjectPayload, none⟩
    sampleModulesPayload "2025-01-01" (by decide) (by decide) (Or.inl rfl)

/-- C2 counterexample: with an empty session (no basic info stored since
the last start), a valid `submitProjectInfo` call succeeds and DOES store
the project info into the session, contradicting the claim that it is
accepted only from state `BasicInfoSet`. -/
theorem c2_counterexample :
    Session.empty.basicInfo = none ∧
    (handleProjectInfo Session.empty sampleProjectPayload).1 = .ok () ∧
    (handleProjectInfo Session.empty sampleProjectPayload).2.projectInfo
      = some sampleProjectPayload := by
  refine ⟨rfl, ?_, ?_⟩ <;> decide

/-- C2 amended: `handleProjectInfo` performs no state check — a valid
payload is stored into the session whatever the state of `basicInfo`;
the completeness check lives in `handleModules`, which refuses to
assemble a record whenever basic info is missing, so the two-phase
submitter still never receives a record assembled without basic info. -/
theorem c2_amended (s : Session) (p : ProjectInfoStep) (m : ModulesStep)
    (today : String) (hu : present p.gitProjectUrl = true)
    (hn : present p.gitProjectName = true)
    (hb : present p.developmentBranch = true) :
    (handleProjectInfo s p).1 = .ok () ∧
    (handleProjectInfo s p).2.projectInfo = some p ∧
    (s.basicInfo = none →
      ∀ r : AssembledIteration, (handleModules s m today).1 ≠ .ok r) := by
  refine ⟨?_, ?_, ?_⟩
  · simp [handleProjectInfo, hu, hn, hb]
  · simp [handleProjectInfo, hu, hn, hb]
  · intro hnone r
    unfold handleModules
    cases hc : (m.componentModules.isSome && m.functionModules.isSome) <;>
      simp [hnone, hc]

/-- C2 amended witness: on the empty session the sample project payload
is stored, and a subsequent modules call cannot produce a record. -/
theorem c2_amended_witness :
    (handleProjectInfo Session.empty sampleProjectPayload).1 = .ok () ∧
    (handleProjectInfo Session.empty sampleProjectPayload).2.projectInfo
      = some sampleProjectPayload ∧
    (Session.empty.basicInfo = none →
      ∀ r : AssembledIteration,
        (handleModules Session.empty sampleModulesPayload "2025-01-01").1
          ≠ .ok r) :=
  c2_amended Session.empty sampleProjectPayload sampleModulesPayload
    "2025-01-01" (by decide) (by decide) (by decide)

/-- C3 counterexample: on `main` with the first-commit time unavailable
and 12 commits in the last 30 days, the claim's fallback predicts
`max(ceil(12 / 3), 3) = 4`, but `GitUtils.calculateWorkDays` returns the
constant `1`. -/
theorem c3_counterexample :
    calculateWorkDays ⟨some "main", none, none, some 12, none, 0⟩ = 1 ∧
    max (jsCeilDiv 12 3) 3 = 4 ∧ (1 : Int) ≠ 4 := by decide

/-- C3 amended: on a `main`/`master` branch, `GitUtils.calculateWorkDays`
returns the ceiling of the days since the first commit when that commit
is available and strictly in the past, and the constant `1` (not the
commit-count fallback) when it is unavailable; the
`max(ceil(commits30 / 3), 3)` / no-commits-`7` rule lives only in
`handleBasicInfo`'s inline estimator, which never consults the first
commit on a main-line branch. -/
theorem c3_amended (o : GitObs)
    (hbr : o.currentBranch = some "main" ∨ o.currentBranch = some "master") :
    (∀ t, o.firstCommitTime = some t → 0 < o.now - t →
      calculateWorkDays o = jsCeilDiv (o.now - t) msPerDay) ∧
    (o.firstCommitTime = none → calculateWorkDays o = 1) ∧
    (∀ c, o.commitsLast30 = some c →
      estimateWorkDaysHandler o
        = if 0 < c then max (jsCeilDiv (c : Int) 3) 3 else 7) := by
  have main_case : ∀ br : String, isFeatureName br = false →
      o.currentBranch = some br →
      (∀ t, o.firstCommitTime = some t → 0 < o.now - t →
        calculateWorkDays o = jsCeilDiv (o.now - t) msPerDay) ∧
      (o.firstCommitTime = none → calculateWorkDays o = 1) ∧
      (∀ c, o.commitsLast30 = some c →
        estimateWorkDaysHandler o
          = if 0 < c then max (jsCeilDiv (c : Int) 3) 3 else 7) := by
    intro br hfeat h
    refine ⟨?_, ?_, ?_⟩
    · intro t ht hpos
      simp [calculateWorkDays, h, hfeat, ht, max_eq_left (one_le_ceilDay hpos)]
    · intro ht
      simp [calculateWorkDays, h, hfeat, ht]
    · intro c hc
      simp [estimateWorkDaysHandler, h, hfeat, hc]
  rcases hbr with h | h
  · exact main_case "main" (by decide) h
  · exact main_case "master" (by decide) h

/-- C3 amended witness: first commit 10 days ago on `main` gives
`ceil(10 days / 1 day) = 10` from `calculateWorkDays`, while the inline
estimator with 12 recent commits gives the commit-count estimate. -/
theorem c3_amended_witness :
    calculateWorkDays obsMainTen = jsCeilDiv (0 - (-10 * msPerDay)) msPerDay ∧
    estimateWorkDaysHandler obsMainTen
      = if 0 < (12 : Nat) then max (jsCeilDiv ((12 : Nat) : Int) 3) 3 else 7 := by
  have h := c3_amended obsMainTen (Or.inl rfl)
  exact ⟨h.1 (-10 * msPerDay) rfl (by decide), h.2.2 12 rfl⟩

/-- C4 counterexample: a feature branch that diverged 45 days ago makes
`GitUtils.calculateWorkDays` return 45 — the merge-base path has no upper
clamp at 30. -/
theorem c4_counterexample :
    calculateWorkDays obsFeatFortyFive = 45 ∧
    ¬ calculateWorkDays obsFeatFortyFive ≤ 30 := by decide

/-- C4 amended: the `[1, 30]` clamp holds in `handleBasicInfo`'s inline
estimator, in both the merge-base path and the branch-first-commit
fallback (45 days of divergence give exactly 30 and 0 days give exactly
1); `GitUtils.calculateWorkDays` clamps only from below at 1 in those
same paths, so 45 days of divergence give exactly 45 there. -/
theorem c4_amended (o : GitObs) (br : String) (hbr : o.currentBranch = some br)
    (hf : isFeatureName br = true) :
    (∀ t, o.mergeBaseTime = some t →
      1 ≤ estimateWorkDaysHandler o ∧ estimateWorkDaysHandler o ≤ 30 ∧
      calculateWorkDays o = max (jsCeilDiv (o.now - t) msPerDay) 1) ∧
    (∀ t, o.mergeBaseTime = none → o.branchFirstCommitTime = some t →
      1 ≤ estimateWorkDaysHandler o ∧ estimateWorkDaysHandler o ≤ 30 ∧
      calculateWorkDays o = max (jsCeilDiv (o.now - t) msPerDay) 1) ∧
    (∀ T : Int,
      estimateWorkDaysHandler
        ⟨some "feat/a", some (T - 45 * msPerDay), none, none, none, T⟩ = 30 ∧
      estimateWorkDaysHandler ⟨some "feat/a", some T, none, none, none, T⟩ = 1 ∧
      calculateWorkDays
        ⟨some "feat/a", some (T - 45 * msPerDay), none, none, none, T⟩ = 45) := by
  refine ⟨?_, ?_, ?_⟩
  · intro t ht
    refine ⟨?_, ?_, ?_⟩
    · simp only [estimateWorkDaysHandler, hbr, hf, if_true, ht]
      exact le_min (le_max_right _ 1) (by norm_num)
    · simp only [estimateWorkDaysHandler, hbr, hf, if_true, ht]
      exact min_le_right _ 30
    · simp [calculateWorkDays, hbr, hf, ht]
  · intro t hmb ht
    refine ⟨?_, ?_, ?_⟩
    · simp only [estimateWorkDaysHandler, hbr, hf, if_true, hmb, ht]
      exact le_min (le_max_right _ 1) (by norm_num)
    · simp only [estimateWorkDaysHandler, hbr, hf, if_true, hmb, ht]
      exact min_le_right _ 30
    · simp [calculateWorkDays, hbr, hf, hmb, ht]
  · intro T
    have h45 : T - (T - 45 * msPerDay) = 45 * msPerDay := by ring
    have h0 : T - T = 0 := by ring
    refine ⟨?_, ?_, ?_⟩
    · simp only [estimateWorkDaysHandler, isFeatureName]
      rw [h45]
      decide
    · simp only [estimateWorkDaysHandler, isFeatureName]
      rw [h0]
      decide
    · simp only [calculateWorkDays, isFeatureName]
      rw [h45]
      decide

/-- When `createIterationRun` succeeds, its event trace is fetch,
resolve, POST, in that order. -/
theorem createIterationRun_ok_trace (api : RemoteAPI) (b : IterationBasicInfo)
    (iterId : Int) (h : (createIterationRun api b).1 = .ok iterId) :
    (createIterationRun api b).2
      = [.fetchProjects, .resolveStep, .postIteration] := by
  unfold createIterationRun at h ⊢
  cases hpl : api.projectList with
  | error e => simp [hpl] at h
  | ok ps =>
    simp only [hpl] at h ⊢
    cases hr : resolveProjectId b.projectLine ps with
    | error re => simp [hr] at h
    | ok pid =>
      simp only [hr] at h ⊢
      cases hpost : api.createIterationPost (mkIterationPayload pid b) with
      | ok i => simp [hpost]
      | error e => simp [hpost] at h

/-- C4 amended witness: the divergence-45-days observation, through the
amended theorem, is bounded in the inline estimator and unclamped in
`calculateWorkDays`. -/
theorem c4_amended_witness :
    (1 ≤ estimateWorkDaysHandler obsFeatFortyFive ∧
     estimateWorkDaysHandler obsFeatFortyFive ≤ 30 ∧
     calculateWorkDays obsFeatFortyFive
       = max (jsCeilDiv (0 - (-45 * msPerDay)) msPerDay) 1) ∧
    estimateWorkDaysHandler ⟨some "feat/a", some ((0 : Int) - 45 * msPerDay),
      none, none, none, 0⟩ = 30 := by
  have h := c4_amended obsFeatFortyFive "feat/a" rfl (by decide)
  exact ⟨h.1 (-45 * msPerDay) rfl, (h.2.2 0).1⟩

/-- C5 counterexample: on a fully successful submission the transform of
the dependent-resource portion runs AFTER the parent resource has been
created (and after the verification probe), not before it — only the
resolve step precedes parent creation. -/
theorem c5_counterexample :
    (submitCompleteIteration apiAllOk sampleIteration).1
      = .ok ⟨5, 9⟩ ∧
    (submitCompleteIteration apiAllOk sampleIteration).2 = fullTrace ∧
    List.indexOf SubmitEvent.postIteration fullTrace
      < List.indexOf SubmitEvent.transform fullTrace := by
  refine ⟨by decide, by decide, by decide⟩

/-- C5 amended: every successful submission performs, in strict order,
project-list fetch, project-id resolution, parent-resource creation,
best-effort verification, the transform of the dependent-resource
portion, and dependent-resource creation; the transform therefore
completes after the parent exists but before the dependent resource is
created, and it defers the parent id by emitting `sprintId = 0`, which
the dependent-creation step overwrites with the returned parent id. -/
theorem c5_amended (api : RemoteAPI) (it : CompleteIteration)
    (r : SubmissionResult)
    (h : (submitCompleteIteration api it).1 = .ok r) :
    (submitCompleteIteration api it).2 = fullTrace ∧
    (convertToCRApplicationData it.crApplication).sprintId = 0 := by
  refine ⟨?_, rfl⟩
  unfold submitCompleteIteration at h ⊢
  cases hres : (createIterationRun api it.basicInfo).1 with
  | error e => simp [hres] at h
  | ok iterId =>
    simp only [hres] at h ⊢
    rw [createIterationRun_ok_trace api it.basicInfo iterId hres]
    cases hcr : api.createCRPost
        { convertToCRApplicationData it.crApplication with sprintId := iterId } with
    | ok crId => simp [hcr, fullTrace]
    | error e => simp [hcr] at h

/-- C5 amended witness: the all-success oracle run has exactly the full
trace and a zero `sprintId` out of the transform. -/
theorem c5_amended_witness :
    (submitCompleteIteration apiAllOk sampleIteration).2 = fullTrace ∧
    (convertToCRApplicationData sampleIteration.crApplication).sprintId = 0 :=
  c5_amended apiAllOk sampleIteration ⟨5, 9⟩ (by decide)

/-- C6: when parent creation succeeds and dependent creation throws, the
submission surfaces the underlying remote error, returns no
`SubmissionResult`, and emits no compensating delete of the created
parent — the trace ends at the dependent-creation attempt. -/
theorem c6_no_rollback (api : RemoteAPI) (it : CompleteIteration)
    (ps : List Project) (pid iterId : Int) (e : String)
    (h1 : api.projectList = .ok ps)
    (h2 : resolveProjectId it.basicInfo.projectLine ps = .ok pid)
    (h3 : api.createIterationPost (mkIterationPayload pid it.basicInfo)
      = .ok iterId)
    (h4 : api.createCRPost
      { convertToCRApplicationData it.crApplication with sprintId := iterId }
      = .error e) :
    (submitCompleteIteration api it).1 = .error (.remote e) ∧
    (∀ r : SubmissionResult, (submitCompleteIteration api it).1 ≠ .ok r) ∧
    SubmitEvent.deleteIteration ∉ (submitCompleteIteration api it).2 ∧
    (submitCompleteIteration api it).2 = fullTrace := by
  have hrun : createIterationRun api it.basicInfo
      = (.ok iterId, [.fetchProjects, .resolveStep, .postIteration]) := by
    unfold createIterationRun
    simp only [h1, h2, h3]
  refine ⟨?_, ?_, ?_, ?_⟩ <;>
    simp [submitCompleteIteration, hrun, h4, fullTrace]

/-- C6 witness: on the oracle whose CR creation throws, the submission
run surfaces the wrapped error and its trace holds no delete. -/
theorem c6_no_rollback_witness :
    (submitCompleteIteration apiCRFails sampleIteration).1
      = .error (.remote "Request failed with status code 500") ∧
    (∀ r : SubmissionResult,
      (submitCompleteIteration apiCRFails sampleIteration).1 ≠ .ok r) ∧
    SubmitEvent.deleteIteration ∉ (submitCompleteIteration apiCRFails sampleIteration).2 ∧
    (submitCompleteIteration apiCRFails sampleIteration).2 = fullTrace :=
  c6_no_rollback apiCRFails sampleIteration [⟨1, "Core"⟩] 1 5
    "Request failed with status code 500" rfl (by decide) rfl rfl
